import Mathlib

/-!
Shallow embedding of the Patent Explorer repository's chat endpoint, tool
set and environment validation, with theorems checking the specification's
claims against the code.

Sources embedded:
- the chat route handler `POST` (rate limiting, access gate, provider/mode
  selection, pre-stream persistence, error classification);
- the tool implementations `createCSV`, `codeExecution`, `patentAnalysis`;
- the environment validation `validatePaymentEnvironment` and its
  import-time auto-validation.

JavaScript idioms are translated as follows: `process.env.X` becomes an
`Option String` field with truthiness `envTruthy`; a thrown exception that
a `catch` swallows becomes an `Except` oracle consumed at the translation
of the `try`; `String.prototype.includes` becomes `containsSub`;
`replace(/"/g, DOUBLEQUOTE)` (a global single-character replace) becomes a
character-level expansion; `Array.prototype.join(sep)` becomes `joinWith`.
-/

/-- JS substring test (`String.prototype.includes`): `pat` occurs
contiguously in `s`. -/
def startsWithChars : List Char → List Char → Bool
  | _, [] => true
  | [], _ :: _ => false
  | c :: cs, p :: ps => c == p && startsWithChars cs ps

/-- `containsSub s pat` is JS `s.includes(pat)`. -/
def containsSub (s pat : String) : Bool :=
  (List.range (s.data.length + 1)).any fun i => startsWithChars (s.data.drop i) pat.data

/-- JS truthiness of an environment variable: set and nonempty. -/
def envTruthy : Option String → Bool
  | some s => !(s == "")
  | none => false

/-- JS `Array.prototype.join(sep)`. -/
def joinWith (sep : String) : List String → String
  | [] => ""
  | [s] => s
  | s :: rest => s ++ sep ++ joinWith sep rest

/-- `url.startsWith('https://')`, at the character level. -/
def startsWithHttps (s : String) : Bool :=
  startsWithChars s.data "https://".data

/-! ## CSV creation tool (`createCSV` in the tools module) -/

/-- A cell must be escaped when it contains a comma, a double quote or a
newline (`cell.includes(',') || cell.includes('"') || cell.includes('\n')`). -/
def needsEscaping (cell : String) : Bool :=
  cell.data.contains ',' || cell.data.contains '"' || cell.data.contains '\n'

/-- Character-level semantics of `cell.replace(/"/g, '""')`: each double
quote is doubled, every other character kept. -/
def escapeQuoteChars : List Char → List Char
  | [] => []
  | c :: cs => if c = '"' then '"' :: '"' :: escapeQuoteChars cs else c :: escapeQuoteChars cs

/-- `createCSV`'s per-cell escaping: wrap in double quotes with internal
quotes doubled when the cell needs escaping, else emit verbatim. -/
def escapeCell (cell : String) : String :=
  if needsEscaping cell then String.mk ('"' :: (escapeQuoteChars cell.data ++ ['"']))
  else cell

/-- One data row of the CSV: `row.map(escape).join(',')`. -/
def serializeRow (row : List String) : String :=
  joinWith "," (row.map escapeCell)

/-- The serialized CSV content: raw joined headers, then the escaped rows,
joined with newlines (`[headers.join(','), ...rows.map(...)].join('\n')`). -/
def csvContent (headers : List String) (rows : List (List String)) : String :=
  joinWith "\n" (joinWith "," headers :: rows.map serializeRow)

/-- A persisted CSV record (the row inserted by `db.createCSV`). -/
structure CSVRecord where
  id : String
  sessionId : Option String
  title : String
  headers : List String
  rows : List (List String)
deriving DecidableEq, Repr

/-- Result of the `createCSV` tool: the structured validation error of the
row/header mismatch branch, or the success payload. -/
inductive CSVResult where
  | validationError (expectedColumns invalidRowCount : Nat)
  | success (content : String) (rowCount columnCount : Nat) (csvId : Option String)
deriving DecidableEq, Repr

/-- The `createCSV` tool body. `freshId` stands for `randomUUID()`, `dbOk`
for whether the `db.createCSV` insert succeeds (its failure is caught and
leaves `csvId` null), `db` is the persisted store, threaded through. -/
def createCSV (headers : List String) (rows : List (List String))
    (title : String) (sessionId : Option String) (freshId : String) (dbOk : Bool)
    (db : List CSVRecord) : CSVResult × List CSVRecord :=
  let headerCount := headers.length
  let invalidRows := rows.filter fun row => row.length != headerCount
  if invalidRows.length > 0 then
    (CSVResult.validationError headerCount invalidRows.length, db)
  else
    let content := csvContent headers rows
    if dbOk then
      (CSVResult.success content rows.length headers.length (some freshId),
       db ++ [{ id := freshId, sessionId := sessionId, title := title,
                headers := headers, rows := rows }])
    else
      (CSVResult.success content rows.length headers.length none, db)

/-- Modelled from the spec: the CSV retrieval endpoint (`/api/csvs/<id>`,
not present under src/) returns the persisted CSV record with the given
identifier from the store. -/
def getCSV (db : List CSVRecord) (id : String) : Option CSVRecord :=
  db.find? fun r => r.id == id

example : csvContent ["A", "B"] [["1", "2"]] = "A,B\n1,2" := by decide
example : escapeCell "a,b" = "\"a,b\"" := by decide
example : escapeCell "a\"b" = "\"a\"\"b\"" := by decide

/-! ## Environment validation (`validatePaymentEnvironment`) -/

/-- The environment variables the validation module reads. -/
structure AppEnv where
  appMode : Option String
  supabaseUrl : Option String
  supabaseAnonKey : Option String
  serviceRoleKey : Option String
  polarAccessToken : Option String
  polarWebhookSecret : Option String
  polarUnlimitedProductId : Option String
  polarPayPerUseProductId : Option String
  valyuApiKey : Option String
  daytonaApiKey : Option String
  aiGatewayApiKey : Option String
deriving DecidableEq, Repr

/-- Result shape of `validatePaymentEnvironment`. -/
structure EnvValidationResult where
  valid : Bool
  errors : List String
  warnings : List String
deriving DecidableEq, Repr

/-- `validatePaymentEnvironment()`: in production (mode not
`development`) the Supabase keys, the four Polar credentials and the AI
Gateway key are pushed to `errors` when missing, `VALYU_API_KEY` and
`DAYTONA_API_KEY` only to `warnings`; in development a missing AI Gateway
key is a warning; a set but non-HTTPS Supabase URL is an error in either
mode. `valid` is `errors.length === 0`. -/
def validatePaymentEnvironment (env : AppEnv) : EnvValidationResult :=
  let isDevelopment := env.appMode == some "development"
  let isProduction := !isDevelopment
  let errors :=
    (if !isDevelopment then
      (if !envTruthy env.supabaseUrl then ["NEXT_PUBLIC_SUPABASE_URL is required"] else []) ++
      (if !envTruthy env.supabaseAnonKey then ["NEXT_PUBLIC_SUPABASE_ANON_KEY is required"] else []) ++
      (if !envTruthy env.serviceRoleKey then ["SUPABASE_SERVICE_ROLE_KEY is required"] else [])
    else []) ++
    (if isProduction then
      (if !envTruthy env.polarAccessToken then ["POLAR_ACCESS_TOKEN is required in production"] else []) ++
      (if !envTruthy env.polarWebhookSecret then ["POLAR_WEBHOOK_SECRET is required in production"] else []) ++
      (if !envTruthy env.polarUnlimitedProductId then ["POLAR_UNLIMITED_PRODUCT_ID is required in production"] else []) ++
      (if !envTruthy env.polarPayPerUseProductId then ["POLAR_PAY_PER_USE_PRODUCT_ID is required in production"] else []) ++
      (if !envTruthy env.aiGatewayApiKey then ["AI_GATEWAY_API_KEY is required - get your key at https://vercel.com/dashboard > AI Gateway > API Keys"] else [])
    else []) ++
    (if envTruthy env.supabaseUrl && !startsWithHttps (env.supabaseUrl.getD "") then
      ["NEXT_PUBLIC_SUPABASE_URL must be a valid HTTPS URL"] else [])
  let warnings :=
    (if isProduction then
      (if !envTruthy env.valyuApiKey then ["VALYU_API_KEY missing - patent search will fail"] else []) ++
      (if !envTruthy env.daytonaApiKey then ["DAYTONA_API_KEY missing - code execution will fail"] else [])
    else []) ++
    (if isDevelopment && !envTruthy env.aiGatewayApiKey then
      ["AI_GATEWAY_API_KEY missing - recommended for Vercel AI SDK integration"] else [])
  { valid := errors.length == 0, errors := errors, warnings := warnings }

/-- Outcome of the module's import-time code: either it runs to completion
(logging the listed errors), or it would abort startup with a thrown
error. The source never takes the `thrown` path: its comment reads
"Don't throw in production to avoid complete app failure, but log
critically". -/
inductive StartupOutcome where
  | completed (loggedErrors : List String)
  | thrown (msg : String)
deriving DecidableEq, Repr

/-- Whether the startup outcome is a hard (process-aborting) error. -/
def StartupOutcome.isHardError : StartupOutcome → Bool
  | .thrown _ => true
  | .completed _ => false

/-- The auto-validation run at import when the mode is not
`development`: it validates, logs each error when invalid, and returns
without throwing. -/
def moduleStartup (env : AppEnv) : StartupOutcome :=
  if env.appMode != some "development" then
    let validation := validatePaymentEnvironment env
    if !validation.valid then
      StartupOutcome.completed validation.errors
    else
      StartupOutcome.completed []
  else
    StartupOutcome.completed []

/-- The eight credentials whose absence `validatePaymentEnvironment`
reports in `errors` in production mode. -/
def requiredCredentialMissing (env : AppEnv) : Bool :=
  !envTruthy env.supabaseUrl || !envTruthy env.supabaseAnonKey ||
  !envTruthy env.serviceRoleKey || !envTruthy env.polarAccessToken ||
  !envTruthy env.polarWebhookSecret || !envTruthy env.polarUnlimitedProductId ||
  !envTruthy env.polarPayPerUseProductId || !envTruthy env.aiGatewayApiKey

/-! ## Code execution tool (`codeExecution`) -/

/-- The outcome of `sandbox.process.codeRun`. -/
structure ExecOutcome where
  exitCode : Int
  result : String
deriving DecidableEq, Repr

/-- The effectful steps of the `codeExecution` body, as oracles: whether
`daytona.create` succeeds, what `codeRun` returns or throws, and whether
the analytics `track` call throws. (`sandbox.delete` failures are caught
inside the `finally` and ignored, so they never influence the outcome.) -/
structure CodeExecEnv where
  daytonaApiKey : Option String
  createResult : Except String Unit
  runResult : Except String ExecOutcome
  trackResult : Except String Unit

/-- Shape of the value the `codeExecution` tool returns to the model
(the exact message strings are immaterial formatting). -/
inductive CodeExecOutcome where
  | tooLongError
  | configError
  | caughtError (msg : String)
  | executionError (result : String)
  | success (output : String)
deriving DecidableEq, Repr

/-- The `codeExecution` tool body. Returns the outcome together with the
number of times `sandbox.delete()` is invoked. The `try`/`finally`
translation: once `daytona.create` succeeds, every path through the body
(normal return, nonzero exit code, thrown error) passes through the
`finally` block, which deletes the sandbox exactly once; when creation
fails the sandbox variable is still null and the `finally` deletes
nothing. -/
def codeExecution (code : String) (env : CodeExecEnv) : CodeExecOutcome × Nat :=
  if code.length > 10000 then
    (CodeExecOutcome.tooLongError, 0)
  else if !envTruthy env.daytonaApiKey then
    (CodeExecOutcome.configError, 0)
  else
    match env.createResult with
    | Except.error e => (CodeExecOutcome.caughtError e, 0)
    | Except.ok _ =>
      match env.runResult with
      | Except.error e => (CodeExecOutcome.caughtError e, 1)
      | Except.ok exec =>
        match env.trackResult with
        | Except.error e => (CodeExecOutcome.caughtError e, 1)
        | Except.ok _ =>
          if exec.exitCode != 0 then
            (CodeExecOutcome.executionError exec.result, 1)
          else
            (CodeExecOutcome.success exec.result, 1)

/-! ## Patent analysis tool (`patentAnalysis`) -/

/-- The upstream Valyu search response; each result record is kept
opaque. -/
structure ValyuResponse where
  results : List String
deriving DecidableEq, Repr

/-- What `patentAnalysis` returns: the JSON payload (as its fields), or
the caught-error text. -/
inductive PatentAnalysisOutcome where
  | payload (type query : String) (resultCount : Nat) (results : List String)
      (favicon displaySource : String)
  | errorText (msg : String)
deriving DecidableEq, Repr

/-- The `patentAnalysis` tool body: missing API key short-circuits, a
thrown search error is caught and reported as text, and on success the
payload carries `type: "patent_analysis"`, the query, the upstream
results verbatim and `displaySource: "USPTO (via Valyu)"`. -/
def patentAnalysis (query : String) (apiKey : Option String)
    (search : Except String ValyuResponse) : PatentAnalysisOutcome :=
  if !envTruthy apiKey then
    PatentAnalysisOutcome.errorText "Valyu API key not configured."
  else
    match search with
    | Except.error e => PatentAnalysisOutcome.errorText ("Error analyzing patents: " ++ e)
    | Except.ok response =>
      PatentAnalysisOutcome.payload "patent_analysis" query response.results.length
        response.results "https://www.uspto.gov/favicon.ico" "USPTO (via Valyu)"

/-! ## Chat endpoint (`POST /api/chat`) -/

/-- Message roles of the incoming conversation. -/
inductive Role where
  | user
  | assistant
  | system
  | tool
deriving DecidableEq, Repr

/-- An incoming UI message: role and content parts (parts kept opaque). -/
structure Msg where
  role : Role
  parts : List String
deriving DecidableEq, Repr

/-- A message row as persisted by `saveChatMessages`. -/
structure SavedMsg where
  id : String
  role : Role
  content : List String
deriving DecidableEq, Repr

/-- `lastMessage?.role === 'user'`. -/
def lastIsUser (messages : List Msg) : Bool :=
  match messages.getLast? with
  | some m => m.role == Role.user
  | none => false

/-- `messages.filter(m => m.role === 'user').length`. -/
def userMessageCount (messages : List Msg) : Nat :=
  (messages.filter fun m => m.role == Role.user).length

/-- The route's gating flag: the last message is a user message AND it is
the first (only) user message of the conversation. -/
def isUserInitiated (messages : List Msg) : Bool :=
  lastIsUser messages && userMessageCount messages == 1

/-- Which local model server the development probe targets. -/
inductive LocalProvider where
  | ollama
  | lmstudio
deriving DecidableEq, Repr

/-- The chosen LLM backend. -/
inductive ModelChoice where
  | localModel (provider : String) (name : String)
  | gateway (model : String)
  | openaiDirect (model : String)
  | polarTracked (userId : String) (model : String)
deriving DecidableEq, Repr

/-- LM Studio's probe result is filtered to drop embedding models. -/
def lmstudioFilter (names : List String) : List String :=
  names.filter fun n =>
    !containsSub n "embed" && !containsSub n "embedding" && !containsSub n "nomic"

/-- Model list obtained from the probe of the selected local provider
(`/v1/models` for LM Studio with the embedding filter, `/api/tags` for
Ollama); a failed or timed-out probe is the `error` case. -/
def devProbeModels (provider : LocalProvider) (probe : Except String (List String)) :
    Except String (List String) :=
  match probe with
  | Except.error e => Except.error e
  | Except.ok names =>
    match provider with
    | LocalProvider.lmstudio => Except.ok (lmstudioFilter names)
    | LocalProvider.ollama => Except.ok names

/-- The development-mode preference-ordered model list. -/
def preferredModels : List String :=
  ["deepseek-r1", "qwen3", "phi4-reasoning", "cogito",
   "llama3.1", "gemma3:4b", "gemma3", "llama3.2", "llama3", "qwen2.5", "codestral"]

/-- First available model whose name includes one of the preferred
names, scanning the preference list in order. -/
def findPreferred : List String → List String → Option String
  | [], _ => none
  | p :: ps, models =>
    match models.find? (fun n => containsSub n p) with
    | some n => some n
    | none => findPreferred ps models

/-- Model-name selection: the user-preferred model when it is listed,
else the first preferred match, else the first listed model. -/
def pickModelName (models : List String) (userPreferred : Option String)
    (first : String) : String :=
  match userPreferred with
  | some p =>
    if models.contains p then p
    else (findPreferred preferredModels models).getD first
  | none => (findPreferred preferredModels models).getD first

/-- Provider display name. -/
def providerName : LocalProvider → String
  | LocalProvider.ollama => "Ollama"
  | LocalProvider.lmstudio => "LM Studio"

/-- The development-mode fallback when the local probe fails: Vercel AI
Gateway if its key is present, else direct OpenAI if that key is present,
else the gateway path anyway. -/
def devFallback (hasGatewayKey hasOpenAIKey : Bool) : ModelChoice :=
  if hasGatewayKey then ModelChoice.gateway "openai/gpt-5"
  else if hasOpenAIKey then ModelChoice.openaiDirect "gpt-5"
  else ModelChoice.gateway "openai/gpt-5"

/-- Development-mode provider selection: the `try` block probes the local
provider and picks a model; a probe failure or an empty model list throws
inside the `try`, and the `catch` swallows the error and falls back to
the hosted path. -/
def selectModelDev (provider : LocalProvider) (probe : Except String (List String))
    (userPreferred : Option String) (hasGatewayKey hasOpenAIKey : Bool) : ModelChoice :=
  match devProbeModels provider probe with
  | Except.error _ => devFallback hasGatewayKey hasOpenAIKey
  | Except.ok models =>
    match models with
    | [] => devFallback hasGatewayKey hasOpenAIKey
    | first :: _ =>
      ModelChoice.localModel (providerName provider)
        (pickModelName models userPreferred first)

/-- Production-mode provider selection: active pay-per-use users get the
Polar-tracked model; everyone else gets the gateway (or direct OpenAI
fallback) path. -/
def selectModelProd (user : Option String) (subscriptionTier : String)
    (subscriptionActive : Bool) (hasGatewayKey hasOpenAIKey : Bool) : ModelChoice :=
  match user with
  | some uid =>
    if subscriptionActive && subscriptionTier == "pay_per_use" then
      ModelChoice.polarTracked uid "gpt-5"
    else if hasGatewayKey then ModelChoice.gateway "openai/gpt-5"
    else if hasOpenAIKey then ModelChoice.openaiDirect "gpt-5"
    else ModelChoice.gateway "openai/gpt-5"
  | none =>
    if hasGatewayKey then ModelChoice.gateway "openai/gpt-5"
    else if hasOpenAIKey then ModelChoice.openaiDirect "gpt-5"
    else ModelChoice.gateway "openai/gpt-5"

/-- Observable effects of a `POST` request, in program order. -/
inductive ChatEvent where
  | rateCheck
  | saveUserMessage (saved : List SavedMsg)
  | updateSessionTimestamp
  | startGeneration
  | rateIncrement
deriving DecidableEq, Repr

/-- Inputs of one `POST /api/chat` request: the request body, headers,
mode, authenticated user, and the outcomes of the awaited external calls
(access validation, rate-limit checks, local probe, streaming). -/
structure PostInput where
  messages : List Msg
  sessionId : Option String
  isDevelopment : Bool
  user : Option String
  hasAccess : Bool
  requiresPaymentSetup : Bool
  anonAllowed : Bool
  userAllowed : Bool
  hasGatewayKey : Bool
  hasOpenAIKey : Bool
  localEnabled : Bool
  localProvider : LocalProvider
  userPreferredModel : Option String
  probe : Except String (List String)
  subscriptionTier : String
  subscriptionActive : Bool
  freshId : String
  streamError : Option String

/-- The HTTP response of the handler: a JSON error body with status, or
the streaming response. -/
inductive PostOutcome where
  | errorResponse (code : String) (status : Nat)
  | streamResponse (choice : ModelChoice)
deriving DecidableEq, Repr

/-- Response plus the effects performed and the session's stored
messages after the request. -/
structure PostResult where
  outcome : PostOutcome
  events : List ChatEvent
  db : List SavedMsg
deriving DecidableEq, Repr

/-- The outer `catch` of the handler: errors whose message mentions
`tool`/`function` or `thinking` (lowercased) become
`MODEL_COMPATIBILITY_ERROR` 400, everything else `CHAT_ERROR` 500. -/
def classifyError (msg : String) : String × Nat :=
  let lower := msg.toLower
  let isToolError := containsSub lower "tool" || containsSub lower "function"
  let isThinkingError := containsSub lower "thinking"
  if isToolError || isThinkingError then ("MODEL_COMPATIBILITY_ERROR", 400)
  else ("CHAT_ERROR", 500)

/-- Whether the access-validation gate returns the 402 response:
authenticated production user without access who requires payment
setup. -/
def paymentBlocked (inp : PostInput) : Bool :=
  inp.user.isSome && !inp.isDevelopment && !inp.hasAccess && inp.requiresPaymentSetup

/-- Whether the rate-limit gate returns the 429 response: the check runs
(user-initiated, production) and the applicable limiter disallows. -/
def rateBlocked (inp : PostInput) : Bool :=
  isUserInitiated inp.messages && !inp.isDevelopment &&
    ((inp.user.isNone && !inp.anonAllowed) || (inp.user.isSome && !inp.userAllowed))

/-- The message of the `AI_GATEWAY_API_KEY` requirement throw. -/
def gatewayRequiredMsg : String :=
  "AI_GATEWAY_API_KEY is required. Get your key at https://vercel.com/dashboard > AI Gateway > API Keys"

/-- The pre-stream persistence block: when there is an authenticated
user, a session id, and the last message is a user message, the user
message (with a fresh UUID) is appended to the session's stored messages
and saved, before `streamText` is called. -/
def preSaveUserMessage (inp : PostInput) (db : List SavedMsg) : Option (List SavedMsg) :=
  if inp.user.isSome && inp.sessionId.isSome && inp.messages.length > 0 then
    match inp.messages.getLast? with
    | some last =>
      if last.role == Role.user then
        some (db ++ [{ id := inp.freshId, role := Role.user, content := last.parts }])
      else none
    | none => none
  else none

/-- The `POST /api/chat` handler: access gate, rate-limit gate, gateway
key requirement, provider selection, pre-stream persistence of the user
message, generation, and post-stream rate-limit increment; thrown errors
are classified by the outer `catch`. -/
def POST (inp : PostInput) (db : List SavedMsg) : PostResult :=
  if paymentBlocked inp then
    { outcome := PostOutcome.errorResponse "PAYMENT_REQUIRED" 402, events := [], db := db }
  else
    let checkEvents : List ChatEvent :=
      if isUserInitiated inp.messages && !inp.isDevelopment then [ChatEvent.rateCheck] else []
    if rateBlocked inp then
      { outcome := PostOutcome.errorResponse "RATE_LIMIT_EXCEEDED" 429,
        events := checkEvents, db := db }
    else if !inp.hasGatewayKey && !inp.isDevelopment then
      let c := classifyError gatewayRequiredMsg
      { outcome := PostOutcome.errorResponse c.1 c.2, events := checkEvents, db := db }
    else
      let choice :=
        if inp.isDevelopment && inp.localEnabled then
          selectModelDev inp.localProvider inp.probe inp.userPreferredModel
            inp.hasGatewayKey inp.hasOpenAIKey
        else
          selectModelProd inp.user inp.subscriptionTier inp.subscriptionActive
            inp.hasGatewayKey inp.hasOpenAIKey
      let saved := preSaveUserMessage inp db
      let db1 := saved.getD db
      let saveEvents : List ChatEvent :=
        match saved with
        | some newDb => [ChatEvent.saveUserMessage newDb, ChatEvent.updateSessionTimestamp]
        | none => []
      let events1 := checkEvents ++ saveEvents ++ [ChatEvent.startGeneration]
      match inp.streamError with
      | some msg =>
        let c := classifyError msg
        { outcome := PostOutcome.errorResponse c.1 c.2, events := events1, db := db1 }
      | none =>
        let incEvents : List ChatEvent :=
          if isUserInitiated inp.messages && !inp.isDevelopment && inp.user.isSome then
            [ChatEvent.rateIncrement]
          else []
        { outcome := PostOutcome.streamResponse choice, events := events1 ++ incEvents,
          db := db1 }

/-! ## CSV serialization: character-level analysis and a decoding parser -/

/-- Characters that force a cell to be escaped. -/
def isSpecialChar (c : Char) : Bool := c == ',' || c == '"' || c == '\n'

/-- Character-level form of `escapeCell`. -/
def escCellChars (cell : List Char) : List Char :=
  if cell.any isSpecialChar then '"' :: (escapeQuoteChars cell ++ ['"']) else cell

/-- Character-level form of `serializeRow`. -/
def serializeRowChars : List (List Char) → List Char
  | [] => []
  | [c] => escCellChars c
  | c :: cs => escCellChars c ++ ',' :: serializeRowChars cs

/-- Decoder for an unquoted cell: the characters up to the next comma. -/
def parseRawCell : List Char → List Char × List Char
  | [] => ([], [])
  | c :: cs =>
    if c = ',' then ([], c :: cs)
    else
      let r := parseRawCell cs
      (c :: r.1, r.2)

/-- Decoder for a quoted cell, after its opening quote: a doubled quote
decodes to one quote, a lone quote closes the cell. -/
def parseQuoted : List Char → Option (List Char × List Char)
  | [] => none
  | c :: cs =>
    if c = '"' then
      match cs with
      | c2 :: cs2 =>
        if c2 = '"' then (parseQuoted cs2).map fun r => ('"' :: r.1, r.2)
        else some ([], c2 :: cs2)
      | [] => some ([], [])
    else (parseQuoted cs).map fun r => (c :: r.1, r.2)

/-- Decoder for one cell: quoted when it starts with a double quote, raw
otherwise. -/
def parseCell : List Char → Option (List Char × List Char)
  | [] => some ([], [])
  | c :: cs => if c = '"' then parseQuoted cs else some (parseRawCell (c :: cs))

/-- Decoder for a comma-separated list of cells (fuel-indexed). -/
def parseCellsFuel : Nat → List Char → Option (List (List Char))
  | 0, _ => none
  | fuel + 1, input =>
    match parseCell input with
    | none => none
    | some (cell, rest) =>
      match rest with
      | [] => some [cell]
      | c :: more =>
        if c = ',' then (parseCellsFuel fuel more).map fun cells => cell :: cells
        else none

lemma contains_eq_any (l : List Char) (x : Char) :
    l.contains x = l.any fun c => c == x := by
  rw [Bool.eq_iff_iff]
  simp [List.contains, List.elem_eq_mem, List.any_eq_true]

lemma needsEscaping_eq_any (cell : String) :
    needsEscaping cell = cell.data.any isSpecialChar := by
  unfold needsEscaping
  rw [contains_eq_any, contains_eq_any, contains_eq_any]
  induction cell.data with
  | nil => rfl
  | cons c cs ih =>
    simp only [List.any_cons, isSpecialChar]
    cases h1 : (c == ',') <;> cases h2 : (c == '"') <;> cases h3 : (c == '\n') <;>
      simp [h1, h2, h3, ih, isSpecialChar]

lemma data_escapeCell (cell : String) :
    (escapeCell cell).data = escCellChars cell.data := by
  unfold escapeCell escCellChars
  rw [needsEscaping_eq_any]
  by_cases h : cell.data.any isSpecialChar <;> simp [h]

lemma data_serializeRow (row : List String) :
    (serializeRow row).data = serializeRowChars (row.map String.data) := by
  induction row with
  | nil => rfl
  | cons s rest ih =>
    cases rest with
    | nil => simp [serializeRow, joinWith, serializeRowChars, data_escapeCell]
    | cons t ts =>
      have step : serializeRow (s :: t :: ts) = escapeCell s ++ "," ++ serializeRow (t :: ts) := by
        simp [serializeRow, joinWith]
      rw [step]
      simp [serializeRowChars, data_escapeCell, ih]

lemma parseRawCell_append (cell rest : List Char)
    (hc : ∀ c ∈ cell, c ≠ ',')
    (hrest : rest = [] ∨ ∃ more, rest = ',' :: more) :
    parseRawCell (cell ++ rest) = (cell, rest) := by
  induction cell with
  | nil =>
    rcases hrest with rfl | ⟨more, rfl⟩
    · rfl
    · simp [parseRawCell]
  | cons c cs ih =>
    have hc1 : c ≠ ',' := hc c (by simp)
    have ih1 := ih fun x hx => hc x (by simp [hx])
    simp [parseRawCell, hc1, ih1]

lemma parseQuoted_append (cell rest : List Char)
    (hrest : rest = [] ∨ ∃ more, rest = ',' :: more) :
    parseQuoted (escapeQuoteChars cell ++ ('"' :: rest)) = some (cell, rest) := by
  induction cell with
  | nil =>
    rcases hrest with rfl | ⟨more, rfl⟩
    · simp [escapeQuoteChars, parseQuoted]
    · simp [escapeQuoteChars, parseQuoted]
  | cons c cs ih =>
    by_cases hc : c = '"'
    · subst hc
      simp only [escapeQuoteChars, if_pos rfl, List.cons_append]
      rw [parseQuoted.eq_def]
      simp [ih]
    · simp only [escapeQuoteChars, if_neg hc, List.cons_append]
      rw [parseQuoted.eq_def]
      simp [hc, ih]

lemma parseCell_escCell (cell rest : List Char)
    (hrest : rest = [] ∨ ∃ more, rest = ',' :: more) :
    parseCell (escCellChars cell ++ rest) = some (cell, rest) := by
  by_cases hs : cell.any isSpecialChar
  · rw [escCellChars, if_pos hs]
    have hshape : ('"' :: (escapeQuoteChars cell ++ ['"'])) ++ rest
        = '"' :: (escapeQuoteChars cell ++ ('"' :: rest)) := by simp
    rw [hshape, parseCell]
    simp [parseQuoted_append cell rest hrest]
  · rw [escCellChars, if_neg hs]
    have hnospecial : ∀ c ∈ cell, ¬ (isSpecialChar c = true) := by
      intro c hcmem hcspec
      exact hs (List.any_eq_true.mpr ⟨c, hcmem, hcspec⟩)
    have hnc : ∀ c ∈ cell, c ≠ ',' := by
      intro c hcmem hceq
      exact hnospecial c hcmem (by simp [isSpecialChar, hceq])
    have hnq : ∀ c ∈ cell, c ≠ '"' := by
      intro c hcmem hceq
      exact hnospecial c hcmem (by simp [isSpecialChar, hceq])
    cases cell with
    | nil =>
      rcases hrest with rfl | ⟨more, rfl⟩
      · rfl
      · simp [parseCell, parseRawCell]
    | cons c cs =>
      have hq : c ≠ '"' := hnq c (by simp)
      have hraw := parseRawCell_append (c :: cs) rest hnc hrest
      simp only [List.cons_append, parseCell, if_neg hq] at *
      rw [hraw]

lemma parseCellsFuel_serializeRowChars (row : List (List Char)) (fuel : Nat)
    (hrow : row ≠ []) (hfuel : row.length ≤ fuel) :
    parseCellsFuel fuel (serializeRowChars row) = some row := by
  induction row generalizing fuel with
  | nil => exact absurd rfl hrow
  | cons c cs ih =>
    obtain ⟨f, rfl⟩ : ∃ f, fuel = f + 1 := by
      cases fuel with
      | zero => simp at hfuel
      | succ f => exact ⟨f, rfl⟩
    cases cs with
    | nil =>
      have h3 := parseCell_escCell c [] (Or.inl rfl)
      rw [List.append_nil] at h3
      simp [serializeRowChars, parseCellsFuel, h3]
    | cons c2 cs2 =>
      have h3 := parseCell_escCell c (',' :: serializeRowChars (c2 :: cs2))
        (Or.inr ⟨_, rfl⟩)
      have hfuel2 : (c2 :: cs2).length ≤ f := by
        simpa [Nat.succ_le_succ_iff] using hfuel
      have ih2 := ih f (by simp) hfuel2
      simp only [serializeRowChars, parseCellsFuel, h3, ih2]
      simp

lemma serializeRowChars_injOn (r1 r2 : List (List Char))
    (hlen : r1.length = r2.length)
    (h : serializeRowChars r1 = serializeRowChars r2) : r1 = r2 := by
  cases r1 with
  | nil =>
    cases r2 with
    | nil => rfl
    | cons b bs => simp at hlen
  | cons a as =>
    cases r2 with
    | nil => simp at hlen
    | cons b bs =>
      have h1 := parseCellsFuel_serializeRowChars (a :: as)
        (max (a :: as).length (b :: bs).length) (by simp) (le_max_left _ _)
      have h2 := parseCellsFuel_serializeRowChars (b :: bs)
        (max (a :: as).length (b :: bs).length) (by simp) (le_max_right _ _)
      rw [h, h2] at h1
      exact (Option.some.injEq _ _).mp h1.symm

lemma string_data_injective : Function.Injective String.data := by
  intro s t hst
  cases s
  cases t
  exact congrArg String.mk hst

/-- C10: the CSV row serialization of `createCSV` (quote-wrapping cells
containing a comma, double quote or newline, with internal quotes
doubled, all other cells verbatim) is injective on rows of a fixed
column count: two rows of equal length with the same serialized line are
equal. -/
theorem serializeRow_injective_fixed_columns (n : Nat) (r1 r2 : List String)
    (h1 : r1.length = n) (h2 : r2.length = n)
    (h : serializeRow r1 = serializeRow r2) : r1 = r2 := by
  have hchars : serializeRowChars (r1.map String.data)
      = serializeRowChars (r2.map String.data) := by
    rw [← data_serializeRow, ← data_serializeRow, h]
  have hlen : (r1.map String.data).length = (r2.map String.data).length := by
    simp [h1, h2]
  have hmaps := serializeRowChars_injOn _ _ hlen hchars
  exact (List.map_injective_iff.mpr string_data_injective) hmaps

/-- Witness for `serializeRow_injective_fixed_columns` at rows whose
cells exercise both the quoted and the verbatim branch. -/
theorem serializeRow_injective_fixed_columns_witness :
    ["a,b", "c\"d", "e"] = ["a,b", "c\"d", "e"] :=
  serializeRow_injective_fixed_columns 3 ["a,b", "c\"d", "e"] ["a,b", "c\"d", "e"]
    (by decide) (by decide) rfl

/-- C4: whenever some row's length differs from the header length,
`createCSV` returns the structured validation error and leaves the
persisted store untouched. -/
theorem createCSV_mismatch_returns_error_persists_nothing
    (headers : List String) (rows : List (List String)) (title : String)
    (sessionId : Option String) (freshId : String) (dbOk : Bool) (db : List CSVRecord)
    (h : ∃ row ∈ rows, row.length ≠ headers.length) :
    (∃ k, 0 < k ∧
      (createCSV headers rows title sessionId freshId dbOk db).1 =
        CSVResult.validationError headers.length k) ∧
    (createCSV headers rows title sessionId freshId dbOk db).2 = db := by
  obtain ⟨row, hmem, hlen⟩ := h
  have hfilter : row ∈ rows.filter fun r => r.length != headers.length := by
    simp [List.mem_filter, hmem, hlen]
  have hpos : 0 < (rows.filter fun r => r.length != headers.length).length :=
    List.length_pos.mpr (List.ne_nil_of_mem hfilter)
  refine ⟨⟨_, hpos, ?_⟩, ?_⟩ <;> simp [createCSV, if_pos hpos]

/-- Witness for `createCSV_mismatch_returns_error_persists_nothing`: a
two-column header with a one-column row. -/
theorem createCSV_mismatch_witness :
    (∃ k, 0 < k ∧
      (createCSV ["A", "B"] [["1"]] "t" none "id-1" true []).1 =
        CSVResult.validationError 2 k) ∧
    (createCSV ["A", "B"] [["1"]] "t" none "id-1" true []).2 = [] :=
  createCSV_mismatch_returns_error_persists_nothing ["A", "B"] [["1"]] "t" none "id-1" true []
    ⟨["1"], by decide, by decide⟩

/-- C8: a CSV created with headers `["A","B"]` and rows `[["1","2"]]`
serializes to `A,B\n1,2`, and looking up the returned identifier in the
store after the call yields the record unchanged. -/
theorem csv_create_roundtrip_simple :
    (createCSV ["A", "B"] [["1", "2"]] "Patents" (some "s1") "csv-1" true []).1 =
      CSVResult.success "A,B\n1,2" 1 2 (some "csv-1") ∧
    getCSV (createCSV ["A", "B"] [["1", "2"]] "Patents" (some "s1") "csv-1" true []).2 "csv-1" =
      some { id := "csv-1", sessionId := some "s1", title := "Patents",
             headers := ["A", "B"], rows := [["1", "2"]] } := by
  decide

/-! ## Claim theorems: environment validation -/

/-- A production environment with every credential missing. -/
def emptyProdEnv : AppEnv :=
  { appMode := none, supabaseUrl := none, supabaseAnonKey := none, serviceRoleKey := none,
    polarAccessToken := none, polarWebhookSecret := none, polarUnlimitedProductId := none,
    polarPayPerUseProductId := none, valyuApiKey := none, daytonaApiKey := none,
    aiGatewayApiKey := none }

/-- Counterexample to C2 as stated: in production mode with all required
credentials missing, validation reports errors (invalid result), yet the
import-time auto-validation completes without a hard error — the source
deliberately does not throw ("Don't throw in production to avoid
complete app failure"). -/
theorem production_missing_credentials_startup_not_fatal :
    (validatePaymentEnvironment emptyProdEnv).valid = false ∧
    "NEXT_PUBLIC_SUPABASE_URL is required" ∈ (validatePaymentEnvironment emptyProdEnv).errors ∧
    (moduleStartup emptyProdEnv).isHardError = false := by
  decide

lemma valid_eq_errors_beq_zero (env : AppEnv) :
    (validatePaymentEnvironment env).valid
      = ((validatePaymentEnvironment env).errors.length == 0) := rfl

lemma valid_false_of_mem_errors (env : AppEnv) (msg : String)
    (h : msg ∈ (validatePaymentEnvironment env).errors) :
    (validatePaymentEnvironment env).valid = false := by
  have hne : (validatePaymentEnvironment env).errors ≠ [] := List.ne_nil_of_mem h
  have hlen : (validatePaymentEnvironment env).errors.length ≠ 0 := by
    simpa [List.length_eq_zero] using hne
  rw [valid_eq_errors_beq_zero]
  simpa using hlen

lemma required_missing_valid_false (env : AppEnv)
    (hd : (env.appMode == some "development") = false)
    (h : requiredCredentialMissing env = true) :
    (validatePaymentEnvironment env).valid = false := by
  simp only [requiredCredentialMissing, Bool.or_eq_true, Bool.not_eq_true'] at h
  rcases h with ((((((h1 | h2) | h3) | h4) | h5) | h6) | h7) | h8
  · exact valid_false_of_mem_errors env "NEXT_PUBLIC_SUPABASE_URL is required"
      (by simp [validatePaymentEnvironment, hd, h1])
  · exact valid_false_of_mem_errors env "NEXT_PUBLIC_SUPABASE_ANON_KEY is required"
      (by simp [validatePaymentEnvironment, hd, h2])
  · exact valid_false_of_mem_errors env "SUPABASE_SERVICE_ROLE_KEY is required"
      (by simp [validatePaymentEnvironment, hd, h3])
  · exact valid_false_of_mem_errors env "POLAR_ACCESS_TOKEN is required in production"
      (by simp [validatePaymentEnvironment, hd, h4])
  · exact valid_false_of_mem_errors env "POLAR_WEBHOOK_SECRET is required in production"
      (by simp [validatePaymentEnvironment, hd, h5])
  · exact valid_false_of_mem_errors env "POLAR_UNLIMITED_PRODUCT_ID is required in production"
      (by simp [validatePaymentEnvironment, hd, h6])
  · exact valid_false_of_mem_errors env "POLAR_PAY_PER_USE_PRODUCT_ID is required in production"
      (by simp [validatePaymentEnvironment, hd, h7])
  · exact valid_false_of_mem_errors env
      "AI_GATEWAY_API_KEY is required - get your key at https://vercel.com/dashboard > AI Gateway > API Keys"
      (by simp [validatePaymentEnvironment, hd, h8])

/-- C2 amended: in production mode a missing required credential makes the
startup validation invalid and its errors are logged at process start,
but the startup completes without a hard error (the code deliberately
does not throw); in development mode missing credentials yield no errors,
only warnings (a missing AI Gateway key is warned about). -/
theorem env_validation_errors_vs_warnings (env : AppEnv) :
    (env.appMode ≠ some "development" → requiredCredentialMissing env = true →
      (validatePaymentEnvironment env).valid = false ∧
      moduleStartup env = StartupOutcome.completed (validatePaymentEnvironment env).errors ∧
      (moduleStartup env).isHardError = false) ∧
    (env.appMode = some "development" → envTruthy env.supabaseUrl = false →
      (validatePaymentEnvironment env).errors = [] ∧
      (validatePaymentEnvironment env).valid = true ∧
      (envTruthy env.aiGatewayApiKey = false →
        "AI_GATEWAY_API_KEY missing - recommended for Vercel AI SDK integration" ∈
          (validatePaymentEnvironment env).warnings)) := by
  constructor
  · intro hprod hmiss
    have hd : (env.appMode == some "development") = false := by
      simpa using hprod
    have hvalid := required_missing_valid_false env hd hmiss
    refine ⟨hvalid, ?_, ?_⟩
    · simp [moduleStartup, hd, hvalid, bne]
    · simp [moduleStartup, hd, hvalid, bne, StartupOutcome.isHardError]
  · intro hdev hurl
    have hd : (env.appMode == some "development") = true := by simp [hdev]
    refine ⟨?_, ?_, ?_⟩
    · simp [validatePaymentEnvironment, hd, hurl]
    · rw [valid_eq_errors_beq_zero]
      simp [validatePaymentEnvironment, hd, hurl]
    · intro hgw
      simp [validatePaymentEnvironment, hd, hgw]

/-- Witness for `env_validation_errors_vs_warnings`: apply it at a
concrete production environment (all credentials missing) and a concrete
development environment, discharging both implications. -/
theorem env_validation_errors_vs_warnings_witness :
    ((validatePaymentEnvironment emptyProdEnv).valid = false ∧
      moduleStartup emptyProdEnv =
        StartupOutcome.completed (validatePaymentEnvironment emptyProdEnv).errors ∧
      (moduleStartup emptyProdEnv).isHardError = false) ∧
    ((validatePaymentEnvironment
        { emptyProdEnv with appMode := some "development" }).errors = [] ∧
      (validatePaymentEnvironment
        { emptyProdEnv with appMode := some "development" }).valid = true ∧
      "AI_GATEWAY_API_KEY missing - recommended for Vercel AI SDK integration" ∈
        (validatePaymentEnvironment
          { emptyProdEnv with appMode := some "development" }).warnings) :=
  ⟨(env_validation_errors_vs_warnings emptyProdEnv).1 (by decide) (by decide),
   by
    have h := (env_validation_errors_vs_warnings
      { emptyProdEnv with appMode := some "development" }).2 rfl (by decide)
    exact ⟨h.1, h.2.1, h.2.2 (by decide)⟩⟩

/-! ## Claim theorems: codeExecution and patentAnalysis -/

/-- C5: once the sandbox is provisioned (the guards pass and
`daytona.create` succeeds), `sandbox.delete()` is invoked exactly once,
whether the code run returns exit code 0, returns a nonzero exit code,
or a step inside the `try` throws. -/
theorem codeExecution_sandbox_deleted_exactly_once
    (code : String) (env : CodeExecEnv)
    (hlen : ¬ code.length > 10000)
    (hkey : envTruthy env.daytonaApiKey = true)
    (hcreate : env.createResult = Except.ok ()) :
    (codeExecution code env).2 = 1 := by
  unfold codeExecution
  rw [if_neg hlen, hkey]
  simp only [Bool.not_true, Bool.false_eq_true, if_false, hcreate]
  cases hr : env.runResult with
  | error e => rfl
  | ok exec =>
    cases ht : env.trackResult with
    | error e => rfl
    | ok u =>
      by_cases hx : exec.exitCode != 0 <;> simp [hx]

/-- Witness for `codeExecution_sandbox_deleted_exactly_once` at a concrete
successful run. -/
theorem codeExecution_sandbox_deleted_witness :
    (codeExecution "print(1)"
      { daytonaApiKey := some "key", createResult := Except.ok (),
        runResult := Except.ok { exitCode := 0, result := "1" },
        trackResult := Except.ok () }).2 = 1 :=
  codeExecution_sandbox_deleted_exactly_once "print(1)"
    { daytonaApiKey := some "key", createResult := Except.ok (),
      runResult := Except.ok { exitCode := 0, result := "1" },
      trackResult := Except.ok () }
    (by decide) (by decide) rfl

/-- C9: a successful `patentAnalysis` call returns the payload with
`type` `"patent_analysis"` and `displaySource` `"USPTO (via Valyu)"`,
and its results are exactly the upstream search results, so every record
in the payload comes from the upstream response. -/
theorem patentAnalysis_payload_fields_and_passthrough
    (query : String) (apiKey : Option String) (resp : ValyuResponse)
    (hkey : envTruthy apiKey = true) :
    patentAnalysis query apiKey (Except.ok resp) =
      PatentAnalysisOutcome.payload "patent_analysis" query resp.results.length
        resp.results "https://www.uspto.gov/favicon.ico" "USPTO (via Valyu)" := by
  unfold patentAnalysis
  rw [hkey]
  simp

/-- Witness for `patentAnalysis_payload_fields_and_passthrough` at the
spec's example query. -/
theorem patentAnalysis_payload_witness :
    patentAnalysis "US11234567" (some "key") (Except.ok { results := ["record-1"] }) =
      PatentAnalysisOutcome.payload "patent_analysis" "US11234567" 1
        ["record-1"] "https://www.uspto.gov/favicon.ico" "USPTO (via Valyu)" :=
  patentAnalysis_payload_fields_and_passthrough "US11234567" (some "key")
    { results := ["record-1"] } (by decide)

/-! ## Claim theorems: provider selection and error responses -/

/-- C7: in development mode, when the local probe fails (request error or
timeout) or lists no usable models, the selector returns the hosted
fallback — the AI Gateway path or the direct OpenAI path — and that
fallback is total: the `catch` swallows the probe error, nothing
escapes the selection step. -/
theorem dev_mode_probe_failure_falls_back_hosted
    (provider : LocalProvider) (probe : Except String (List String))
    (userPreferred : Option String) (hasGatewayKey hasOpenAIKey : Bool)
    (h : (∃ e, probe = Except.error e) ∨ devProbeModels provider probe = Except.ok []) :
    selectModelDev provider probe userPreferred hasGatewayKey hasOpenAIKey =
      devFallback hasGatewayKey hasOpenAIKey ∧
    (selectModelDev provider probe userPreferred hasGatewayKey hasOpenAIKey =
        ModelChoice.gateway "openai/gpt-5" ∨
     selectModelDev provider probe userPreferred hasGatewayKey hasOpenAIKey =
        ModelChoice.openaiDirect "gpt-5") := by
  have hfall : selectModelDev provider probe userPreferred hasGatewayKey hasOpenAIKey =
      devFallback hasGatewayKey hasOpenAIKey := by
    rcases h with ⟨e, he⟩ | hempty
    · subst he
      unfold selectModelDev devProbeModels
      rfl
    · unfold selectModelDev
      rw [hempty]
  refine ⟨hfall, ?_⟩
  rw [hfall]
  unfold devFallback
  by_cases hg : hasGatewayKey = true
  · simp [hg]
  · by_cases ho : hasOpenAIKey = true <;> simp [hg, ho]

/-- Witness for `dev_mode_probe_failure_falls_back_hosted`: a timed-out
Ollama probe with the gateway key configured. -/
theorem dev_mode_probe_failure_witness :
    selectModelDev LocalProvider.ollama (Except.error "fetch timeout") none true false =
      devFallback true false ∧
    (selectModelDev LocalProvider.ollama (Except.error "fetch timeout") none true false =
        ModelChoice.gateway "openai/gpt-5" ∨
     selectModelDev LocalProvider.ollama (Except.error "fetch timeout") none true false =
        ModelChoice.openaiDirect "gpt-5") :=
  dev_mode_probe_failure_falls_back_hosted LocalProvider.ollama
    (Except.error "fetch timeout") none true false (Or.inl ⟨_, rfl⟩)

lemma classifyError_cases (msg : String) :
    classifyError msg = ("MODEL_COMPATIBILITY_ERROR", 400) ∨
    classifyError msg = ("CHAT_ERROR", 500) := by
  simp only [classifyError]
  split
  · exact Or.inl rfl
  · exact Or.inr rfl

/-- C6: every JSON error response the chat handler produces pairs its
error code with the matching HTTP status: `PAYMENT_REQUIRED` with 402,
`RATE_LIMIT_EXCEEDED` with 429, `MODEL_COMPATIBILITY_ERROR` with 400 and
`CHAT_ERROR` with 500. -/
theorem chat_error_responses_code_status (inp : PostInput) (db : List SavedMsg)
    (code : String) (status : Nat)
    (h : (POST inp db).outcome = PostOutcome.errorResponse code status) :
    (code = "PAYMENT_REQUIRED" ∧ status = 402) ∨
    (code = "RATE_LIMIT_EXCEEDED" ∧ status = 429) ∨
    (code = "MODEL_COMPATIBILITY_ERROR" ∧ status = 400) ∨
    (code = "CHAT_ERROR" ∧ status = 500) := by
  unfold POST at h
  by_cases h1 : paymentBlocked inp = true
  · rw [if_pos h1] at h
    simp only [PostOutcome.errorResponse.injEq] at h
    exact Or.inl ⟨h.1.symm, h.2.symm⟩
  · rw [if_neg h1] at h
    by_cases h2 : rateBlocked inp = true
    · rw [if_pos h2] at h
      simp only [PostOutcome.errorResponse.injEq] at h
      exact Or.inr (Or.inl ⟨h.1.symm, h.2.symm⟩)
    · rw [if_neg h2] at h
      by_cases h3 : (!inp.hasGatewayKey && !inp.isDevelopment) = true
      · rw [if_pos h3] at h
        simp only [PostOutcome.errorResponse.injEq] at h
        rcases classifyError_cases gatewayRequiredMsg with hc | hc <;>
          rw [hc] at h <;> simp only [] at h
        · exact Or.inr (Or.inr (Or.inl ⟨h.1.symm, h.2.symm⟩))
        · exact Or.inr (Or.inr (Or.inr ⟨h.1.symm, h.2.symm⟩))
      · rw [if_neg h3] at h
        cases hs : inp.streamError with
        | some msg =>
          rw [hs] at h
          simp only [PostOutcome.errorResponse.injEq] at h
          rcases classifyError_cases msg with hc | hc <;>
            rw [hc] at h <;> simp only [] at h
          · exact Or.inr (Or.inr (Or.inl ⟨h.1.symm, h.2.symm⟩))
          · exact Or.inr (Or.inr (Or.inr ⟨h.1.symm, h.2.symm⟩))
        | none =>
          rw [hs] at h
          simp at h

/-- A production request from an authenticated user whose access
validation demands payment setup. -/
def paymentBlockedInput : PostInput :=
  { messages := [{ role := Role.user, parts := ["hi"] }],
    sessionId := some "s1", isDevelopment := false, user := some "u1",
    hasAccess := false, requiresPaymentSetup := true,
    anonAllowed := true, userAllowed := true,
    hasGatewayKey := true, hasOpenAIKey := false,
    localEnabled := false, localProvider := LocalProvider.ollama,
    userPreferredModel := none, probe := Except.error "unreachable",
    subscriptionTier := "free", subscriptionActive := false,
    freshId := "id-1", streamError := none }

/-- Witness for `chat_error_responses_code_status` at a request that is
answered with the `PAYMENT_REQUIRED` error. -/
theorem chat_error_responses_code_status_witness :
    ("PAYMENT_REQUIRED" = "PAYMENT_REQUIRED" ∧ (402 : Nat) = 402) ∨
    ("PAYMENT_REQUIRED" = "RATE_LIMIT_EXCEEDED" ∧ (402 : Nat) = 429) ∨
    ("PAYMENT_REQUIRED" = "MODEL_COMPATIBILITY_ERROR" ∧ (402 : Nat) = 400) ∨
    ("PAYMENT_REQUIRED" = "CHAT_ERROR" ∧ (402 : Nat) = 500) :=
  chat_error_responses_code_status paymentBlockedInput [] "PAYMENT_REQUIRED" 402 (by decide)

/-! ## Claim theorems: rate-limit gating -/

lemma isUserInitiated_iff (msgs : List Msg) :
    isUserInitiated msgs = true ↔
      (lastIsUser msgs = true ∧ ∀ m ∈ msgs.dropLast, m.role ≠ Role.user) := by
  rcases List.eq_nil_or_concat' msgs with rfl | ⟨l, a, rfl⟩
  · simp [isUserInitiated, lastIsUser]
  · simp only [isUserInitiated, lastIsUser, userMessageCount, List.getLast?_concat,
      List.dropLast_concat, List.filter_append, List.length_append, Bool.and_eq_true]
    by_cases ha : a.role = Role.user
    · simp only [ha, List.filter_cons, beq_self_eq_true, if_true, List.filter_nil,
        List.length_cons, List.length_nil, beq_iff_eq, true_and]
      constructor
      · intro h m hm hrole
        have hz : (l.filter fun m => m.role == Role.user).length = 0 := by omega
        have hnil := List.length_eq_zero.mp hz
        have : m ∈ l.filter fun m => m.role == Role.user := by
          simp [List.mem_filter, hm, hrole]
        simp [hnil] at this
      · intro h
        have hnil : l.filter (fun m => m.role == Role.user) = [] := by
          rw [List.filter_eq_nil_iff]
          intro m hm
          simpa using h m hm
        simp [hnil]
    · have ha2 : (a.role == Role.user) = false := by simpa using ha
      simp [ha2]

lemma POST_rateCheck_mem (inp : PostInput) (db : List SavedMsg)
    (hpay : paymentBlocked inp = false) :
    ChatEvent.rateCheck ∈ (POST inp db).events ↔
      (isUserInitiated inp.messages && !inp.isDevelopment) = true := by
  unfold POST
  simp only [hpay, Bool.false_eq_true, if_false]
  by_cases hc : (isUserInitiated inp.messages && !inp.isDevelopment) = true
  · simp only [hc, if_true, iff_true]
    by_cases h2 : rateBlocked inp = true
    · simp [h2]
    · by_cases h3 : (!inp.hasGatewayKey && !inp.isDevelopment) = true
      · simp [h2, h3]
      · cases hs : inp.streamError with
        | some msg => simp [h2, h3, hs]
        | none => simp [h2, h3, hs]
  · simp only [hc, if_false, iff_false]
    by_cases h2 : rateBlocked inp = true
    · simp [h2]
    · by_cases h3 : (!inp.hasGatewayKey && !inp.isDevelopment) = true
      · simp [h2, h3]
      · cases hsave : preSaveUserMessage inp db with
        | some newDb =>
          cases hs : inp.streamError with
          | some msg => simp [h2, h3, hs, hsave, hc]
          | none => simp [h2, h3, hs, hsave, hc]
        | none =>
          cases hs : inp.streamError with
          | some msg => simp [h2, h3, hs, hsave, hc]
          | none => simp [h2, h3, hs, hsave, hc]

lemma POST_rateIncrement_mem (inp : PostInput) (db : List SavedMsg)
    (hpay : paymentBlocked inp = false) :
    ChatEvent.rateIncrement ∈ (POST inp db).events →
      (isUserInitiated inp.messages && !inp.isDevelopment && inp.user.isSome) = true := by
  unfold POST
  simp only [hpay, Bool.false_eq_true, if_false]
  by_cases hinc : (isUserInitiated inp.messages && !inp.isDevelopment && inp.user.isSome) = true
  · intro _
    exact hinc
  · intro hmem
    exfalso
    by_cases h2 : rateBlocked inp = true
    · simp [h2] at hmem
    · by_cases h3 : (!inp.hasGatewayKey && !inp.isDevelopment) = true
      · simp [h2, h3] at hmem
      · cases hsave : preSaveUserMessage inp db with
        | some newDb =>
          cases hs : inp.streamError with
          | some msg => simp [h2, h3, hs, hsave] at hmem
          | none => simp [h2, h3, hs, hsave, hinc] at hmem
        | none =>
          cases hs : inp.streamError with
          | some msg => simp [h2, h3, hs, hsave] at hmem
          | none => simp [h2, h3, hs, hsave, hinc] at hmem

/-- A second-turn production request: the last message is the user
message inciting the turn, but the conversation already holds an earlier
user message. -/
def secondTurnInput : PostInput :=
  { messages := [{ role := Role.user, parts := ["first question"] },
                 { role := Role.assistant, parts := ["answer"] },
                 { role := Role.user, parts := ["follow-up question"] }],
    sessionId := some "s1", isDevelopment := false, user := some "u1",
    hasAccess := true, requiresPaymentSetup := false,
    anonAllowed := true, userAllowed := true,
    hasGatewayKey := true, hasOpenAIKey := false,
    localEnabled := false, localProvider := LocalProvider.ollama,
    userPreferredModel := none, probe := Except.error "unreachable",
    subscriptionTier := "free", subscriptionActive := false,
    freshId := "id-2", streamError := none }

/-- Counterexample to C1 as stated: a production request whose last
message is the user message inciting the turn, yet the handler performs
neither the rate-limit check nor the increment, because the gating
condition additionally demands that it be the first user message of the
conversation (`userMessageCount === 1`). -/
theorem rate_limit_gating_not_last_user_message :
    lastIsUser secondTurnInput.messages = true ∧
    secondTurnInput.isDevelopment = false ∧
    ChatEvent.rateCheck ∉ (POST secondTurnInput []).events ∧
    ChatEvent.rateIncrement ∉ (POST secondTurnInput []).events := by
  decide

/-- C1 amended: in production mode (payment gate passing), the
rate-limit check runs exactly when the request's last message is a user
message and no earlier message of the conversation is a user message
(that is, the inciting user message of the conversation's first turn);
the increment likewise happens only then, and only for an authenticated
user. -/
theorem rate_limit_gating_first_user_turn (inp : PostInput) (db : List SavedMsg)
    (hprod : inp.isDevelopment = false)
    (hpay : paymentBlocked inp = false) :
    (ChatEvent.rateCheck ∈ (POST inp db).events ↔
      (lastIsUser inp.messages = true ∧ ∀ m ∈ inp.messages.dropLast, m.role ≠ Role.user)) ∧
    (ChatEvent.rateIncrement ∈ (POST inp db).events →
      ((lastIsUser inp.messages = true ∧ ∀ m ∈ inp.messages.dropLast, m.role ≠ Role.user) ∧
        inp.user.isSome = true)) := by
  have h1 := POST_rateCheck_mem inp db hpay
  have h2 := POST_rateIncrement_mem inp db hpay
  rw [hprod] at h1 h2
  simp only [Bool.not_false, Bool.and_true] at h1 h2
  constructor
  · rw [h1]
    exact isUserInitiated_iff inp.messages
  · intro hm
    have hb := h2 hm
    have hsplit : isUserInitiated inp.messages = true ∧ inp.user.isSome = true := by
      simpa using hb
    exact ⟨(isUserInitiated_iff inp.messages).mp hsplit.1, hsplit.2⟩

/-- A first-turn production request from an authenticated user. -/
def firstTurnInput : PostInput :=
  { messages := [{ role := Role.user, parts := ["first question"] }],
    sessionId := some "s1", isDevelopment := false, user := some "u1",
    hasAccess := true, requiresPaymentSetup := false,
    anonAllowed := true, userAllowed := true,
    hasGatewayKey := true, hasOpenAIKey := false,
    localEnabled := false, localProvider := LocalProvider.ollama,
    userPreferredModel := none, probe := Except.error "unreachable",
    subscriptionTier := "free", subscriptionActive := false,
    freshId := "id-3", streamError := none }

/-- Witness for `rate_limit_gating_first_user_turn` at a concrete
first-turn request. -/
theorem rate_limit_gating_first_user_turn_witness :
    (ChatEvent.rateCheck ∈ (POST firstTurnInput []).events ↔
      (lastIsUser firstTurnInput.messages = true ∧
        ∀ m ∈ firstTurnInput.messages.dropLast, m.role ≠ Role.user)) ∧
    (ChatEvent.rateIncrement ∈ (POST firstTurnInput []).events →
      ((lastIsUser firstTurnInput.messages = true ∧
        ∀ m ∈ firstTurnInput.messages.dropLast, m.role ≠ Role.user) ∧
        firstTurnInput.user.isSome = true)) :=
  rate_limit_gating_first_user_turn firstTurnInput [] (by decide) (by decide)

/-! ## Claim theorems: pre-stream persistence -/

lemma preSave_of_userTurn (inp : PostInput) (db : List SavedMsg) (last : Msg)
    (huser : inp.user.isSome = true) (hsess : inp.sessionId.isSome = true)
    (hlast : inp.messages.getLast? = some last) (hrole : last.role = Role.user) :
    preSaveUserMessage inp db =
      some (db ++ [{ id := inp.freshId, role := Role.user, content := last.parts }]) := by
  have hne : inp.messages ≠ [] := by
    intro h
    rw [h] at hlast
    simp at hlast
  have hlen : inp.messages.length > 0 := List.length_pos.mpr hne
  unfold preSaveUserMessage
  simp [huser, hsess, hlen, hlast, hrole]

/-- C3: for a chat turn with an authenticated user, a session id and a
request ending in the user's message (and passing the payment, rate and
gateway-key gates), the handler emits the save of the user's message and
the session-timestamp update strictly before generation starts, the
saved message is in the session's stored messages after the request, and
if generation fails immediately (`streamText` throws) the request ends
in an error response while the user's message remains stored. -/
theorem user_message_persisted_before_generation
    (inp : PostInput) (db : List SavedMsg) (last : Msg)
    (huser : inp.user.isSome = true) (hsess : inp.sessionId.isSome = true)
    (hlast : inp.messages.getLast? = some last) (hrole : last.role = Role.user)
    (hpay : paymentBlocked inp = false) (hrate : rateBlocked inp = false)
    (hgw : inp.hasGatewayKey = true) :
    (∃ pre post,
      (POST inp db).events =
        pre ++ ChatEvent.saveUserMessage
            (db ++ [{ id := inp.freshId, role := Role.user, content := last.parts }]) ::
          ChatEvent.updateSessionTimestamp :: ChatEvent.startGeneration :: post ∧
      ChatEvent.startGeneration ∉ pre) ∧
    ({ id := inp.freshId, role := Role.user, content := last.parts } : SavedMsg)
      ∈ (POST inp db).db ∧
    (∀ emsg, inp.streamError = some emsg →
      ∃ c s, (POST inp db).outcome = PostOutcome.errorResponse c s) := by
  have hsave := preSave_of_userTurn inp db last huser hsess hlast hrole
  cases hs : inp.streamError with
  | some emsg =>
    refine ⟨⟨if isUserInitiated inp.messages && !inp.isDevelopment
        then [ChatEvent.rateCheck] else [], [], ?_, ?_⟩, ?_, ?_⟩
    · unfold POST
      simp [hpay, hrate, hgw, hsave, hs]
    · split <;> simp
    · unfold POST
      simp [hpay, hrate, hgw, hsave, hs]
    · intro emsg2 hseq
      unfold POST
      simp [hpay, hrate, hgw, hsave, hs]
  | none =>
    refine ⟨⟨if isUserInitiated inp.messages && !inp.isDevelopment
        then [ChatEvent.rateCheck] else [],
        if isUserInitiated inp.messages && !inp.isDevelopment && inp.user.isSome
        then [ChatEvent.rateIncrement] else [], ?_, ?_⟩, ?_, ?_⟩
    · unfold POST
      simp [hpay, hrate, hgw, hsave, hs]
    · split <;> simp
    · unfold POST
      simp [hpay, hrate, hgw, hsave, hs]
    · intro emsg2 hseq
      exact absurd hseq (by simp)

/-- A first-turn production request with a session, used to witness the
persistence ordering. -/
def persistTurnInput : PostInput :=
  { messages := [{ role := Role.user, parts := ["question"] }],
    sessionId := some "s7", isDevelopment := false, user := some "u7",
    hasAccess := true, requiresPaymentSetup := false,
    anonAllowed := true, userAllowed := true,
    hasGatewayKey := true, hasOpenAIKey := false,
    localEnabled := false, localProvider := LocalProvider.ollama,
    userPreferredModel := none, probe := Except.error "unreachable",
    subscriptionTier := "free", subscriptionActive := false,
    freshId := "uuid-7", streamError := none }

/-- Witness for `user_message_persisted_before_generation` at a concrete
turn. -/
theorem user_message_persisted_before_generation_witness :
    (∃ pre post,
      (POST persistTurnInput []).events =
        pre ++ ChatEvent.saveUserMessage
            ([] ++ [{ id := persistTurnInput.freshId, role := Role.user,
                      content := Msg.parts { role := Role.user, parts := ["question"] } }]) ::
          ChatEvent.updateSessionTimestamp :: ChatEvent.startGeneration :: post ∧
      ChatEvent.startGeneration ∉ pre) ∧
    ({ id := persistTurnInput.freshId, role := Role.user,
       content := Msg.parts { role := Role.user, parts := ["question"] } } : SavedMsg)
      ∈ (POST persistTurnInput []).db ∧
    (∀ emsg, persistTurnInput.streamError = some emsg →
      ∃ c s, (POST persistTurnInput []).outcome = PostOutcome.errorResponse c s) :=
  user_message_persisted_before_generation persistTurnInput []
    { role := Role.user, parts := ["question"] }
    (by decide) (by decide) (by decide) (by decide) (by decide) (by decide) (by decide)
